import Mathlib

/-! # rtesm-gpio-app: shallow embedding of `main.c`

`main.c` holds five `volatile` globals and three RTEMS tasks.  `gpio4_task`
blinks GPIO4 and, on every on→off change, toggles GPIO18 and counts;
`logger_task` polls the elapsed-time accumulator and prints a status line.

The embedding keeps the globals in `SharedState`, the logger's local variable
and the externally visible calls (GPIO driver, `rtems_task_wake_after`,
`printf`) in `World`, and models one iteration of each task's `while (1)` body
as one function `World → World`.  `uint32_t` values are naturals reduced
modulo `2^32` where the C code can wrap.

Granularity: an iteration is one atomic step, so every read of a global inside
an iteration sees the same state.  A run is a list of events, each an iteration
of `gpio4_task`, an iteration of `logger_task`, or a store into
`gpio4_toggle_delay_ms` by an outside agent; any interleaving of the two tasks
is some such list.  Time is not modelled: the sleeps are recorded as calls, and
a timed scenario is given as the list of events in the order they fall due.

`Init` is a function of the statuses its calls return.  Two variants of the
toggler iteration refine the atomic one: `gpio4_task_step_sc` takes the status
each GPIO driver call returns, `gpio4_task_step_reads` the values the two reads
of the `volatile` period return.
-/

namespace GpioApp

/-! ## Machine integers -/

/-- Number of values of a `uint32_t`. -/
def U32 : Nat := 4294967296

/-- Number of values of a `uint8_t`. -/
def U8 : Nat := 256

/-- C's logical negation `!x`: 1 when `x` is 0, otherwise 0. -/
def lnot (x : Nat) : Nat := if x = 0 then 1 else 0

/-- Subtraction of two `uint32_t` values, `a - b` as C computes it. -/
def u32sub (a b : Nat) : Nat := (a % U32 + (U32 - b % U32)) % U32

/-! ## Constants of `main.c` -/

def GPIO_BANK : Nat := 0
def GPIO4 : Nat := 4
def GPIO18 : Nat := 18

/-! ## Data model -/

/-- The five `volatile` globals of `main.c` (lines 47–51). -/
structure SharedState where
  gpio4_toggle_delay_ms : Nat
  gpio4_state : Nat
  gpio18_state : Nat
  toggle_counter : Nat
  ms_elapsed : Nat
  deriving DecidableEq, Repr

/-- Every global holds a value of its C type. -/
def SharedState.wf (s : SharedState) : Prop :=
  s.gpio4_toggle_delay_ms < U32 ∧ s.gpio4_state < U8 ∧ s.gpio18_state < U8 ∧
    s.toggle_counter < U32 ∧ s.ms_elapsed < U32

instance (s : SharedState) : Decidable s.wf := by
  unfold SharedState.wf; infer_instance

/-- The two looping tasks. -/
inductive TaskId
  | gpio4
  | logger
  deriving DecidableEq, Repr

/-- The arguments of one `printf` of `logger_task` (lines 91–95), in order. -/
structure Report where
  ms : Nat
  gpio4 : String
  gpio18 : String
  toggles : Nat
  deriving DecidableEq, Repr

/-- Calls that leave the program, in the order they are made. -/
inductive Effect
  -- rtems_gpio_bsp_set(bank, pin)
  | gpio_set (bank pin : Nat)
  -- rtems_gpio_bsp_clear(bank, pin)
  | gpio_clear (bank pin : Nat)
  -- rtems_task_wake_after(RTEMS_MILLISECONDS_TO_TICKS(ms)), called by `task`
  | wake_after_ms (task : TaskId) (ms : Nat)
  -- the printf of logger_task
  | printf (r : Report)
  -- the printf of Init (line 107)
  | banner
  -- rtems_gpio_bsp_select_output(bank, pin, NULL)
  | select_output (bank pin : Nat)
  -- rtems_fatal_error_occurred(sc)
  | fatal_error_occurred (sc : Nat)
  -- rtems_task_create(rtems_build_name(..), priority, ..)
  | task_create (name : String) (priority : Nat)
  -- rtems_task_start(tid, entry, 0); `tid` is the task whose id the variable holds
  | task_start (tid : Option String) (entry : TaskId)
  -- rtems_task_delete(RTEMS_SELF)
  | task_delete_self
  deriving DecidableEq, Repr

/-- Globals, the logger's local `last_ms_reported`, and the calls made so far. -/
structure World where
  sh : SharedState
  last_ms_reported : Nat
  trace : List Effect
  deriving DecidableEq, Repr

/-- Globals and the logger's local hold values of their C types. -/
def World.wf (w : World) : Prop := w.sh.wf ∧ w.last_ms_reported < U32

instance (w : World) : Decidable w.wf := by
  unfold World.wf; infer_instance

/-- The globals as initialised (lines 47–51), the logger's local as initialised
(line 84), and no call made yet. -/
def initial : World :=
  { sh := { gpio4_toggle_delay_ms := 500, gpio4_state := 0, gpio18_state := 0,
            toggle_counter := 0, ms_elapsed := 0 },
    last_ms_reported := 0,
    trace := [] }

/-! ## The tasks -/

/-- One iteration of the `while (1)` body of `gpio4_task` (lines 57–77). -/
def gpio4_task_step (w : World) : World :=
  -- gpio4_state = !gpio4_state;
  let g4 := lnot w.sh.gpio4_state
  let w1 : World := { w with sh := { w.sh with gpio4_state := g4 } }
  let w2 : World :=
    if g4 ≠ 0 then
      { w1 with trace := w1.trace ++ [Effect.gpio_set GPIO_BANK GPIO4] }
    else
      -- gpio18_state = !gpio18_state;
      let g18 := lnot w1.sh.gpio18_state
      let drive18 :=
        if g18 ≠ 0 then Effect.gpio_set GPIO_BANK GPIO18
        else Effect.gpio_clear GPIO_BANK GPIO18
      { w1 with
        sh := { w1.sh with
                gpio18_state := g18,
                -- toggle_counter++;
                toggle_counter := (w1.sh.toggle_counter + 1) % U32 },
        trace := w1.trace ++ [Effect.gpio_clear GPIO_BANK GPIO4, drive18] }
  -- ms_elapsed += gpio4_toggle_delay_ms;
  { w2 with
    sh := { w2.sh with
            ms_elapsed := (w2.sh.ms_elapsed + w2.sh.gpio4_toggle_delay_ms) % U32 },
    trace := w2.trace ++ [Effect.wake_after_ms TaskId.gpio4 w2.sh.gpio4_toggle_delay_ms] }

/-- The label `logger_task` prints for a state byte: `x ? "ON " : "OFF"`. -/
def onOff (x : Nat) : String := if x ≠ 0 then "ON " else "OFF"

/-- The condition of line 90, `ms_elapsed - last_ms_reported >= 500`. -/
def logger_due (w : World) : Bool :=
  decide (500 ≤ u32sub w.sh.ms_elapsed w.last_ms_reported)

/-- The line `logger_task` prints from the current globals (lines 91–95). -/
def logger_report (w : World) : Report :=
  { ms := w.sh.ms_elapsed,
    gpio4 := onOff w.sh.gpio4_state,
    gpio18 := onOff w.sh.gpio18_state,
    toggles := w.sh.toggle_counter }

/-- One iteration of the `while (1)` body of `logger_task` (lines 87–97). -/
def logger_task_step (w : World) : World :=
  let w1 : World := { w with trace := w.trace ++ [Effect.wake_after_ms TaskId.logger 100] }
  if logger_due w1 then
    { w1 with
      trace := w1.trace ++ [Effect.printf (logger_report w1)],
      last_ms_reported := w1.sh.ms_elapsed }
  else
    w1

/-! ## Startup -/

/-- The status `RTEMS_SUCCESSFUL` of the RTEMS headers (not part of the
repository); RTEMS defines it as 0. -/
def RTEMS_SUCCESSFUL : Nat := 0

/-- The status each call of `Init` returns, in the order of the calls. -/
structure InitStatuses where
  select4 : Nat
  clear4 : Nat
  select18 : Nat
  clear18 : Nat
  create_gpio4 : Nat
  start_gpio4 : Nat
  create_logger : Nat
  start_logger : Nat
  deriving DecidableEq, Repr

/-- How `Init` ends: the state it leaves, and the status passed to
`rtems_fatal_error_occurred` when it halted there. -/
structure Boot where
  world : World
  halted : Option Nat
  deriving DecidableEq, Repr

/-- The value of the local `tid` after `rtems_task_create` returned `sc` for the
task `name`: the id is stored only when the call succeeded. -/
def tid_after (tid : Option String) (sc : Nat) (name : String) : Option String :=
  if sc = RTEMS_SUCCESSFUL then some name else tid

/-- The body of `Init` (lines 107–131), run from `w` with the calls returning
`st`.  `rtems_fatal_error_occurred` does not return. -/
def Init (st : InitStatuses) (w : World) : Boot :=
  let t0 := w.trace ++ [Effect.banner, Effect.select_output GPIO_BANK GPIO4]
  -- if (sc != RTEMS_SUCCESSFUL) rtems_fatal_error_occurred(sc);
  if st.select4 ≠ RTEMS_SUCCESSFUL then
    { world := { w with trace := t0 ++ [Effect.fatal_error_occurred st.select4] },
      halted := some st.select4 }
  else
    -- rtems_gpio_bsp_clear(GPIO_BANK, GPIO4); gpio4_state = 0;
    let t1 := t0 ++ [Effect.gpio_clear GPIO_BANK GPIO4, Effect.select_output GPIO_BANK GPIO18]
    let sh1 : SharedState := { w.sh with gpio4_state := 0 }
    if st.select18 ≠ RTEMS_SUCCESSFUL then
      { world := { w with sh := sh1, trace := t1 ++ [Effect.fatal_error_occurred st.select18] },
        halted := some st.select18 }
    else
      -- rtems_gpio_bsp_clear(GPIO_BANK, GPIO18); gpio18_state = 0;
      let sh2 : SharedState := { sh1 with gpio18_state := 0 }
      let tid1 := tid_after none st.create_gpio4 "G4TK"
      let tid2 := tid_after tid1 st.create_logger "LOGR"
      { world :=
          { w with
            sh := sh2,
            trace := t1 ++
              [Effect.gpio_clear GPIO_BANK GPIO18,
               Effect.task_create "G4TK" 1, Effect.task_start tid1 TaskId.gpio4,
               Effect.task_create "LOGR" 2, Effect.task_start tid2 TaskId.logger,
               Effect.task_delete_self] },
        halted := none }

/-- RTEMS task priorities: the numerically smaller value is the higher priority
(1 is the highest). -/
def higherPriority (a b : Nat) : Prop := a < b

instance (a b : Nat) : Decidable (higherPriority a b) := by
  unfold higherPriority; infer_instance

/-- The level last driven on a pin by the calls of a trace: `some true` after
`rtems_gpio_bsp_set`, `some false` after `rtems_gpio_bsp_clear`, `none` when the
pin was never driven.  Every drive call is taken to have driven the line. -/
def lastDriven (bank pin : Nat) (t : List Effect) : Option Bool :=
  t.foldl
    (fun acc e =>
      match e with
      | Effect.gpio_set b p => if b = bank ∧ p = pin then some true else acc
      | Effect.gpio_clear b p => if b = bank ∧ p = pin then some false else acc
      | _ => acc)
    none

/-! ## The toggler at a finer grain -/

/-- One iteration of the body of `gpio4_task` (lines 57–77) with the status each
GPIO driver call returns given by `sc`.  The calls are expression statements:
the returned status is dropped, and the body holds no call of
`rtems_fatal_error_occurred`, so the iteration never halts. -/
def gpio4_task_step_sc (sc : Effect → Nat) (w : World) : Boot :=
  let g4 := lnot w.sh.gpio4_state
  let w1 : World := { w with sh := { w.sh with gpio4_state := g4 } }
  let w2 : World :=
    if g4 ≠ 0 then
      let _ := sc (Effect.gpio_set GPIO_BANK GPIO4)
      { w1 with trace := w1.trace ++ [Effect.gpio_set GPIO_BANK GPIO4] }
    else
      let _ := sc (Effect.gpio_clear GPIO_BANK GPIO4)
      let g18 := lnot w1.sh.gpio18_state
      let drive18 :=
        if g18 ≠ 0 then Effect.gpio_set GPIO_BANK GPIO18
        else Effect.gpio_clear GPIO_BANK GPIO18
      let _ := sc drive18
      { w1 with
        sh := { w1.sh with
                gpio18_state := g18,
                toggle_counter := (w1.sh.toggle_counter + 1) % U32 },
        trace := w1.trace ++ [Effect.gpio_clear GPIO_BANK GPIO4, drive18] }
  { world :=
      { w2 with
        sh := { w2.sh with
                ms_elapsed := (w2.sh.ms_elapsed + w2.sh.gpio4_toggle_delay_ms) % U32 },
        trace := w2.trace ++
          [Effect.wake_after_ms TaskId.gpio4 w2.sh.gpio4_toggle_delay_ms] },
    halted := none }

/-- One iteration of the body of `gpio4_task` (lines 57–77) in which the read of
the `volatile` `gpio4_toggle_delay_ms` in line 76 returns `r1` and the read in
line 77 returns `r2`. -/
def gpio4_task_step_reads (w : World) (r1 r2 : Nat) : World :=
  let g4 := lnot w.sh.gpio4_state
  let w1 : World := { w with sh := { w.sh with gpio4_state := g4 } }
  let w2 : World :=
    if g4 ≠ 0 then
      { w1 with trace := w1.trace ++ [Effect.gpio_set GPIO_BANK GPIO4] }
    else
      let g18 := lnot w1.sh.gpio18_state
      let drive18 :=
        if g18 ≠ 0 then Effect.gpio_set GPIO_BANK GPIO18
        else Effect.gpio_clear GPIO_BANK GPIO18
      { w1 with
        sh := { w1.sh with
                gpio18_state := g18,
                toggle_counter := (w1.sh.toggle_counter + 1) % U32 },
        trace := w1.trace ++ [Effect.gpio_clear GPIO_BANK GPIO4, drive18] }
  -- ms_elapsed += gpio4_toggle_delay_ms;                       (first read)
  -- rtems_task_wake_after(.. (gpio4_toggle_delay_ms));         (second read)
  { w2 with
    sh := { w2.sh with ms_elapsed := (w2.sh.ms_elapsed + r1) % U32 },
    trace := w2.trace ++ [Effect.wake_after_ms TaskId.gpio4 r2] }

/-- The argument of the most recent sleep of `gpio4_task` in a trace. -/
def lastTogglerSleep (t : List Effect) : Option Nat :=
  t.foldl
    (fun acc e =>
      match e with
      | Effect.wake_after_ms TaskId.gpio4 ms => some ms
      | _ => acc)
    none

/-! ## Runs -/

/-- What can happen between two observations of the system: one iteration of
either task, or an external agent (a debugger) storing a new period into
`gpio4_toggle_delay_ms` (header comment, line 22). -/
inductive Event
  | toggler
  | logger
  | poke (p : Nat)
  deriving DecidableEq, Repr

/-- The effect of one event. -/
def step (w : World) : Event → World
  | Event.toggler => gpio4_task_step w
  | Event.logger => logger_task_step w
  | Event.poke p => { w with sh := { w.sh with gpio4_toggle_delay_ms := p % U32 } }

/-- The effect of a sequence of events, first to last. -/
def run (w : World) (es : List Event) : World := es.foldl step w

/-- The status lines printed so far, oldest first. -/
def reports (w : World) : List Report :=
  w.trace.filterMap fun e =>
    match e with
    | Effect.printf r => some r
    | _ => none

/-! ## Observations on runs -/

/-- Number of iterations of `gpio4_task` in a sequence of events. -/
def togglerSteps (es : List Event) : Nat := es.count Event.toggler

/-- Logical level of a state byte as C tests it: 1 when non-zero, else 0. -/
def active (x : Nat) : Nat := if x = 0 then 0 else 1

/-- Number of events of the run of `es` from `w` that took `gpio4_state` from
active (non-zero) to inactive (0). -/
def fallingEdges (w : World) : List Event → Nat
  | [] => 0
  | e :: es =>
    (if w.sh.gpio4_state ≠ 0 ∧ (step w e).sh.gpio4_state = 0 then 1 else 0) +
      fallingEdges (step w e) es

/-- Number of events of the run of `es` from `w` that changed `gpio18_state`. -/
def gpio18Flips (w : World) : List Event → Nat
  | [] => 0
  | e :: es =>
    (if (step w e).sh.gpio18_state ≠ w.sh.gpio18_state then 1 else 0) +
      gpio18Flips (step w e) es

/-- An event that is an iteration of one of the two tasks (not an outside write). -/
def Event.isTask : Event → Bool
  | Event.toggler => true
  | Event.logger => true
  | Event.poke _ => false

/-- One full toggle cycle: two consecutive iterations of `gpio4_task` with no
other event in between. -/
def toggleCycle (w : World) : World := gpio4_task_step (gpio4_task_step w)

/-- The elapsed values recorded by the printed lines, oldest first; each is the
baseline `last_ms_reported` the logger stored when it printed the line. -/
def baselines (w : World) : List Nat := (reports w).map Report.ms

/-- The logger's baseline is the last recorded one (0 before any report), and
neighbouring recorded baselines differ. -/
def BaselineInv (w : World) : Prop :=
  List.Chain' (fun a b : Nat => a ≠ b) (0 :: baselines w) ∧
    (0 :: baselines w).getLast? = some w.last_ms_reported

/-- The events due at time `t` ms in Scenario B: `gpio4_task` (period 500) runs
at 0, 500, 1000 and 1500, `logger_task` (sleep 100) at every multiple of 100
from 100 to 2000.  `togglerFirst` fixes the order when both are due; `Init`
gives `gpio4_task` the higher priority (1 against 2), which is `true`. -/
def scenarioB_at (togglerFirst : Bool) (t : Nat) : List Event :=
  let tg := if t % 500 = 0 ∧ t < 2000 then [Event.toggler] else []
  let lg := if t % 100 = 0 ∧ 100 ≤ t ∧ t ≤ 2000 then [Event.logger] else []
  if togglerFirst then tg ++ lg else lg ++ tg

/-- Scenario B: the events of 2000 ms of simulated time, in time order. -/
def scenarioB (togglerFirst : Bool) : List Event :=
  ((List.range 21).map fun k => scenarioB_at togglerFirst (100 * k)).flatten

/-- Every call of `Init` returning `RTEMS_SUCCESSFUL`. -/
def allSuccessful : InitStatuses :=
  { select4 := RTEMS_SUCCESSFUL, clear4 := RTEMS_SUCCESSFUL, select18 := RTEMS_SUCCESSFUL,
    clear18 := RTEMS_SUCCESSFUL, create_gpio4 := RTEMS_SUCCESSFUL,
    start_gpio4 := RTEMS_SUCCESSFUL, create_logger := RTEMS_SUCCESSFUL,
    start_logger := RTEMS_SUCCESSFUL }

/-- The milliseconds the toggler steps of the run of `es` from `w` added to
`ms_elapsed`: the sum, as a natural number, of the period each step used. -/
def addedMs (w : World) : List Event → Nat
  | [] => 0
  | Event.toggler :: es => w.sh.gpio4_toggle_delay_ms + addedMs (step w Event.toggler) es
  | e :: es => addedMs (step w e) es

/-- Lines drive the levels the state bytes hold: the level last driven on GPIO4
is active iff `gpio4_state` is non-zero, and likewise for GPIO18. -/
def PinsMatch (w : World) : Prop :=
  lastDriven GPIO_BANK GPIO4 w.trace = some (decide (w.sh.gpio4_state ≠ 0)) ∧
    lastDriven GPIO_BANK GPIO18 w.trace = some (decide (w.sh.gpio18_state ≠ 0))

/-- Four toggler steps, the logger polling after each. -/
def pollEachStep : List Event :=
  [Event.toggler, Event.logger, Event.toggler, Event.logger,
   Event.toggler, Event.logger, Event.toggler, Event.logger]

/-- Every GPIO driver call returning the status 10, which is not
`RTEMS_SUCCESSFUL`. -/
def driveFails : Effect → Nat := fun _ => 10

/-! ## Concrete states -/

/-- A state with A active and `toggle_counter` at the largest `uint32_t`. -/
def counterFull : World :=
  { initial with sh := { initial.sh with gpio4_state := 1, toggle_counter := 4294967295 } }

/-- A run of `2^33` iterations of `gpio4_task` and nothing else. -/
def longRun : List Event := List.replicate 8589934592 Event.toggler

/-- The initial globals with `ms_elapsed` 296 below `2^32`. -/
def elapsedNearWrap : World :=
  { initial with sh := { initial.sh with ms_elapsed := 4294967000 } }

/-- The globals after the first toggler step, with the period then set to the
largest `uint32_t` by an outside write. -/
def hugePeriod : World :=
  { initial with
    sh := { initial.sh with
            gpio4_toggle_delay_ms := 4294967295, gpio4_state := 1, ms_elapsed := 500 } }

/-- A report was just made at `ms_elapsed = 4294967000`, 296 below `2^32`. -/
def reportedNearWrap : World :=
  { initial with
    sh := { initial.sh with ms_elapsed := 4294967000 },
    last_ms_reported := 4294967000 }

/-! ## Field-by-field effect of the two loop bodies -/

theorem lnot_ne_self (x : Nat) : lnot x ≠ x := by
  unfold lnot; split <;> omega

theorem lnot_eq_zero_iff (x : Nat) : lnot x = 0 ↔ x ≠ 0 := by
  unfold lnot; split <;> simp_all

theorem lnot_lt_two (x : Nat) : lnot x < 2 := by
  unfold lnot; split <;> omega

theorem gpio4_step_gpio4 (w : World) :
    (gpio4_task_step w).sh.gpio4_state = lnot w.sh.gpio4_state := by
  unfold gpio4_task_step; dsimp only; split <;> rfl

theorem gpio4_step_gpio18 (w : World) :
    (gpio4_task_step w).sh.gpio18_state =
      if w.sh.gpio4_state = 0 then w.sh.gpio18_state else lnot w.sh.gpio18_state := by
  unfold gpio4_task_step; dsimp only
  by_cases h : w.sh.gpio4_state = 0 <;> simp [lnot, h]

theorem gpio4_step_counter (w : World) :
    (gpio4_task_step w).sh.toggle_counter =
      if w.sh.gpio4_state = 0 then w.sh.toggle_counter
      else (w.sh.toggle_counter + 1) % U32 := by
  unfold gpio4_task_step; dsimp only
  by_cases h : w.sh.gpio4_state = 0 <;> simp [lnot, h]

theorem gpio4_step_ms (w : World) :
    (gpio4_task_step w).sh.ms_elapsed =
      (w.sh.ms_elapsed + w.sh.gpio4_toggle_delay_ms) % U32 := by
  unfold gpio4_task_step; dsimp only; split <;> rfl

theorem gpio4_step_delay (w : World) :
    (gpio4_task_step w).sh.gpio4_toggle_delay_ms = w.sh.gpio4_toggle_delay_ms := by
  unfold gpio4_task_step; dsimp only; split <;> rfl

theorem gpio4_step_last (w : World) :
    (gpio4_task_step w).last_ms_reported = w.last_ms_reported := by
  unfold gpio4_task_step; dsimp only; split <;> rfl

theorem logger_step_sh (w : World) : (logger_task_step w).sh = w.sh := by
  unfold logger_task_step; dsimp only; split <;> rfl

theorem gpio4_step_gpio18_ne_iff (w : World) :
    (gpio4_task_step w).sh.gpio18_state ≠ w.sh.gpio18_state ↔
      (w.sh.gpio4_state ≠ 0 ∧ (gpio4_task_step w).sh.gpio4_state = 0) := by
  rw [gpio4_step_gpio18, gpio4_step_gpio4, lnot_eq_zero_iff]
  by_cases h : w.sh.gpio4_state = 0
  · simp [h]
  · simp [h, lnot_ne_self]

/-! ## Runs: unfolding and invariants -/

theorem run_nil (w : World) : run w [] = w := rfl

theorem run_cons (w : World) (e : Event) (es : List Event) :
    run w (e :: es) = run (step w e) es := rfl

theorem run_append (w : World) (es fs : List Event) :
    run w (es ++ fs) = run (run w es) fs := by
  unfold run; exact List.foldl_append _ _ _ _

theorem togglerSteps_toggler (es : List Event) :
    togglerSteps (Event.toggler :: es) = togglerSteps es + 1 := by
  simp [togglerSteps]

theorem togglerSteps_logger (es : List Event) :
    togglerSteps (Event.logger :: es) = togglerSteps es := by
  simp [togglerSteps]

theorem togglerSteps_poke (p : Nat) (es : List Event) :
    togglerSteps (Event.poke p :: es) = togglerSteps es := by
  simp [togglerSteps]

theorem active_lnot (x : Nat) : active (lnot x) = 1 - active x := by
  unfold active lnot; by_cases h : x = 0 <;> simp [h]

theorem active_le_one (x : Nat) : active x ≤ 1 := by
  unfold active; split <;> omega

theorem active_eq_one_iff (x : Nat) : active x = 1 ↔ x ≠ 0 := by
  unfold active; split <;> simp_all

/-- The falling edges of a run are counted by its number of toggler steps. -/
theorem fallingEdges_eq (es : List Event) :
    ∀ w : World, fallingEdges w es = (togglerSteps es + active w.sh.gpio4_state) / 2 := by
  induction es with
  | nil =>
    intro w
    have := active_le_one w.sh.gpio4_state
    simp only [fallingEdges, togglerSteps, List.count_nil]
    omega
  | cons e es ih =>
    intro w
    cases e with
    | toggler =>
      have h1 := active_le_one w.sh.gpio4_state
      have h2 : (if w.sh.gpio4_state ≠ 0 then 1 else 0) = active w.sh.gpio4_state := by
        unfold active; by_cases h : w.sh.gpio4_state = 0 <;> simp [h]
      simp only [fallingEdges, step, ih, gpio4_step_gpio4, togglerSteps_toggler, active_lnot,
        lnot_eq_zero_iff, and_self, h2]
      generalize active w.sh.gpio4_state = a at h1 ⊢
      omega
    | logger =>
      have h0 : ¬ (w.sh.gpio4_state ≠ 0 ∧ w.sh.gpio4_state = 0) := fun h => h.1 h.2
      simp only [fallingEdges, step, ih, logger_step_sh, togglerSteps_logger, h0, if_false]
      omega
    | poke p =>
      have h0 : ¬ (w.sh.gpio4_state ≠ 0 ∧ w.sh.gpio4_state = 0) := fun h => h.1 h.2
      simp only [fallingEdges, step, ih, togglerSteps_poke, h0, if_false]
      omega

theorem gpio18Flips_eq (es : List Event) :
    ∀ w : World, gpio18Flips w es = fallingEdges w es := by
  induction es with
  | nil => intro w; rfl
  | cons e es ih =>
    intro w
    cases e with
    | toggler =>
      simp only [gpio18Flips, fallingEdges, step, ih]
      by_cases h : (gpio4_task_step w).sh.gpio18_state ≠ w.sh.gpio18_state
      · rw [if_pos h, if_pos ((gpio4_step_gpio18_ne_iff w).mp h)]
      · rw [if_neg h, if_neg (fun h2 => h ((gpio4_step_gpio18_ne_iff w).mpr h2))]
    | logger =>
      have h0 : ¬ (w.sh.gpio4_state ≠ 0 ∧ w.sh.gpio4_state = 0) := fun h => h.1 h.2
      simp [gpio18Flips, fallingEdges, step, ih, logger_step_sh, h0]
    | poke p =>
      have h0 : ¬ (w.sh.gpio4_state ≠ 0 ∧ w.sh.gpio4_state = 0) := fun h => h.1 h.2
      simp [gpio18Flips, fallingEdges, step, ih, h0]

/-- Along any run `toggle_counter` advances, modulo `2^32`, by the falling edges. -/
theorem run_counter (es : List Event) :
    ∀ w : World, (run w es).sh.toggle_counter % U32 =
      (w.sh.toggle_counter + fallingEdges w es) % U32 := by
  induction es with
  | nil => intro w; rfl
  | cons e es ih =>
    intro w
    rw [run_cons, ih]
    cases e with
    | toggler =>
      simp only [fallingEdges, step, gpio4_step_gpio4, gpio4_step_counter, lnot_eq_zero_iff,
        and_self]
      by_cases h : w.sh.gpio4_state = 0
      · simp [h]
      · simp only [h, ne_eq, not_false_eq_true, if_true, if_false]
        unfold U32; omega
    | logger =>
      have h0 : ¬ (w.sh.gpio4_state ≠ 0 ∧ w.sh.gpio4_state = 0) := fun h => h.1 h.2
      simp [fallingEdges, step, logger_step_sh, h0]
    | poke p =>
      have h0 : ¬ (w.sh.gpio4_state ≠ 0 ∧ w.sh.gpio4_state = 0) := fun h => h.1 h.2
      simp [fallingEdges, step, h0]

/-- Along any run the level of `gpio18_state` changes parity with the falling edges. -/
theorem run_gpio18 (es : List Event) :
    ∀ w : World, active (run w es).sh.gpio18_state =
      (active w.sh.gpio18_state + fallingEdges w es) % 2 := by
  induction es with
  | nil =>
    intro w
    have := active_le_one w.sh.gpio18_state
    simp only [run_nil, fallingEdges]; omega
  | cons e es ih =>
    intro w
    rw [run_cons, ih]
    cases e with
    | toggler =>
      have h1 := active_le_one w.sh.gpio18_state
      simp only [fallingEdges, step, gpio4_step_gpio4, gpio4_step_gpio18, lnot_eq_zero_iff,
        and_self]
      by_cases h : w.sh.gpio4_state = 0
      · simp [h]
      · simp only [h, ne_eq, not_false_eq_true, if_true, if_false, active_lnot]
        generalize active w.sh.gpio18_state = a at h1 ⊢
        omega
    | logger =>
      have h0 : ¬ (w.sh.gpio4_state ≠ 0 ∧ w.sh.gpio4_state = 0) := fun h => h.1 h.2
      simp [fallingEdges, step, logger_step_sh, h0]
    | poke p =>
      have h0 : ¬ (w.sh.gpio4_state ≠ 0 ∧ w.sh.gpio4_state = 0) := fun h => h.1 h.2
      simp [fallingEdges, step, h0]

theorem gpio4_step_wf (w : World) (h : w.wf) : (gpio4_task_step w).wf := by
  obtain ⟨⟨h1, h2, h3, h4, h5⟩, h6⟩ := h
  have a := lnot_lt_two w.sh.gpio4_state
  have b := lnot_lt_two w.sh.gpio18_state
  refine ⟨⟨?_, ?_, ?_, ?_, ?_⟩, ?_⟩
  · rw [gpio4_step_delay]; exact h1
  · rw [gpio4_step_gpio4]; unfold U8; omega
  · rw [gpio4_step_gpio18]; split
    · exact h3
    · unfold U8; omega
  · rw [gpio4_step_counter]; split
    · exact h4
    · exact Nat.mod_lt _ (by decide)
  · rw [gpio4_step_ms]; exact Nat.mod_lt _ (by decide)
  · rw [gpio4_step_last]; exact h6

theorem logger_step_last (w : World) :
    (logger_task_step w).last_ms_reported =
      if logger_due w then w.sh.ms_elapsed else w.last_ms_reported := by
  unfold logger_task_step logger_due; dsimp only; split <;> rfl

theorem logger_step_wf (w : World) (h : w.wf) : (logger_task_step w).wf := by
  refine ⟨by rw [logger_step_sh]; exact h.1, ?_⟩
  rw [logger_step_last]; split
  · exact h.1.2.2.2.2
  · exact h.2

theorem step_wf (w : World) (e : Event) (h : w.wf) : (step w e).wf := by
  cases e with
  | toggler => exact gpio4_step_wf w h
  | logger => exact logger_step_wf w h
  | poke p =>
    obtain ⟨⟨_, h2, h3, h4, h5⟩, h6⟩ := h
    exact ⟨⟨Nat.mod_lt _ (by decide), h2, h3, h4, h5⟩, h6⟩

/-- Every state of every run from a well-formed state is well-formed. -/
theorem run_wf (es : List Event) : ∀ w : World, w.wf → (run w es).wf := by
  induction es with
  | nil => intro w h; exact h
  | cons e es ih => intro w h; exact ih _ (step_wf w e h)

theorem initial_wf : initial.wf := by decide

/-- Whatever the events, `ms_elapsed` stays a `uint32_t`. -/
theorem run_ms_lt (es : List Event) :
    ∀ w : World, w.sh.ms_elapsed < U32 → (run w es).sh.ms_elapsed < U32 := by
  induction es with
  | nil => intro w h; exact h
  | cons e es ih =>
    intro w h
    rw [run_cons]
    apply ih
    cases e with
    | toggler => simp only [step]; rw [gpio4_step_ms]; exact Nat.mod_lt _ (by decide)
    | logger => simp only [step]; rw [logger_step_sh]; exact h
    | poke p => exact h

/-- With no outside write, the period is kept and `ms_elapsed` advances, modulo
`2^32`, by the period once for each toggler step. -/
theorem run_elapsed (es : List Event) :
    ∀ w : World, (∀ e ∈ es, e.isTask = true) →
      (run w es).sh.gpio4_toggle_delay_ms = w.sh.gpio4_toggle_delay_ms ∧
      (run w es).sh.ms_elapsed % U32 =
        (w.sh.ms_elapsed + togglerSteps es * w.sh.gpio4_toggle_delay_ms) % U32 := by
  induction es with
  | nil => intro w _; simp [run_nil, togglerSteps]
  | cons e es ih =>
    intro w h
    have ht := ih (step w e) (fun x hx => h x (List.mem_cons_of_mem _ hx))
    rw [run_cons]
    cases e with
    | toggler =>
      simp only [step] at ht ⊢
      rw [gpio4_step_delay, gpio4_step_ms] at ht
      refine ⟨ht.1, ?_⟩
      rw [ht.2, togglerSteps_toggler, Nat.succ_mul]
      generalize togglerSteps es * w.sh.gpio4_toggle_delay_ms = k
      unfold U32; omega
    | logger =>
      simp only [step] at ht ⊢
      rw [logger_step_sh] at ht
      rw [togglerSteps_logger]; exact ht
    | poke p =>
      have := h (Event.poke p) (List.mem_cons_self _ _)
      simp [Event.isTask] at this

/-! ## The logger -/

theorem logger_due_iff (w : World) :
    logger_due w = true ↔ 500 ≤ u32sub w.sh.ms_elapsed w.last_ms_reported := by
  unfold logger_due; exact decide_eq_true_iff

theorem logger_step_trace (w : World) :
    (logger_task_step w).trace =
      w.trace ++ Effect.wake_after_ms TaskId.logger 100 ::
        (if logger_due w then [Effect.printf (logger_report w)] else []) := by
  unfold logger_task_step logger_due logger_report; dsimp only
  split <;> simp

theorem reports_append (w v : World) (l : List Effect) (h : v.trace = w.trace ++ l) :
    reports v = reports w ++ l.filterMap fun e =>
      match e with
      | Effect.printf r => some r
      | _ => none := by
  unfold reports; rw [h, List.filterMap_append]

theorem logger_step_reports (w : World) :
    reports (logger_task_step w) =
      reports w ++ (if logger_due w then [logger_report w] else []) := by
  rw [reports_append w _ _ (logger_step_trace w)]
  by_cases h : logger_due w = true <;> simp [h, List.filterMap_cons]

theorem gpio4_step_reports (w : World) : reports (gpio4_task_step w) = reports w := by
  have h : ∃ l : List Effect, (gpio4_task_step w).trace = w.trace ++ l ∧
      (l.filterMap fun e =>
        match e with
        | Effect.printf r => some r
        | _ => none) = [] := by
    unfold gpio4_task_step; dsimp only
    split
    · exact ⟨_, by rw [List.append_assoc], by simp [List.filterMap_cons]⟩
    · refine ⟨_, by rw [List.append_assoc], ?_⟩
      split <;> simp [List.filterMap_cons]
  obtain ⟨l, h1, h2⟩ := h
  rw [reports_append w _ l h1, h2, List.append_nil]

/-- The `uint32_t` difference of a value with itself is 0. -/
theorem u32sub_self (a : Nat) : u32sub a a = 0 := by
  unfold u32sub U32; omega

/-- On `uint32_t` operands `u32sub` is the difference, taken around the wrap
when the second operand is the larger. -/
theorem u32sub_eq (a b : Nat) (ha : a < U32) (hb : b < U32) :
    u32sub a b = if b ≤ a then a - b else a + U32 - b := by
  unfold u32sub U32 at *; split <;> omega

theorem logger_step_baselines (w : World) :
    baselines (logger_task_step w) =
      baselines w ++ (if logger_due w then [w.sh.ms_elapsed] else []) := by
  unfold baselines; rw [logger_step_reports]
  by_cases h : logger_due w = true <;> simp [h, logger_report]

/-- A due logger step sees an elapsed value different from its baseline. -/
theorem logger_due_ne (w : World) (h : logger_due w = true) :
    w.sh.ms_elapsed ≠ w.last_ms_reported := by
  intro he
  have h1 := (logger_due_iff w).mp h
  rw [he, u32sub_self] at h1
  omega

theorem step_baselineInv (w : World) (e : Event) (h : BaselineInv w) :
    BaselineInv (step w e) := by
  cases e with
  | toggler =>
    unfold BaselineInv baselines at *
    simp only [step]
    rw [gpio4_step_reports, gpio4_step_last]; exact h
  | poke p => exact h
  | logger =>
    unfold BaselineInv at *
    simp only [step]
    rw [logger_step_baselines, logger_step_last]
    by_cases hd : logger_due w = true
    · rw [if_pos hd, if_pos hd, ← List.cons_append]
      refine ⟨?_, List.getLast?_concat _⟩
      rw [List.chain'_append]
      refine ⟨h.1, List.chain'_singleton _, ?_⟩
      intro x hx y hy
      rw [h.2] at hx
      simp only [Option.mem_def, Option.some.injEq, List.head?_cons] at hx hy
      rw [← hx, ← hy]
      exact fun he => logger_due_ne w hd he.symm
    · rw [if_neg hd, if_neg hd, List.append_nil]; exact h

theorem run_baselineInv (es : List Event) :
    ∀ w : World, BaselineInv w → BaselineInv (run w es) := by
  induction es with
  | nil => intro w h; exact h
  | cons e es ih => intro w h; exact ih _ (step_baselineInv w e h)

/-- While the baseline equals `ms_elapsed` and no toggler step is taken, no line
is printed and the two stay equal. -/
theorem run_quiet (es : List Event) :
    ∀ w : World, w.last_ms_reported = w.sh.ms_elapsed → togglerSteps es = 0 →
      reports (run w es) = reports w ∧
        (run w es).last_ms_reported = (run w es).sh.ms_elapsed := by
  induction es with
  | nil => intro w h _; exact ⟨rfl, h⟩
  | cons e es ih =>
    intro w h hn
    cases e with
    | toggler => rw [togglerSteps_toggler] at hn; omega
    | poke p =>
      rw [togglerSteps_poke] at hn
      exact ih (step w (Event.poke p)) h hn
    | logger =>
      rw [togglerSteps_logger] at hn
      have hd : ¬ logger_due w = true := fun hd => logger_due_ne w hd h.symm
      have h1 : reports (logger_task_step w) = reports w := by
        rw [logger_step_reports, if_neg hd, List.append_nil]
      have h2 : (logger_task_step w).last_ms_reported = (logger_task_step w).sh.ms_elapsed := by
        rw [logger_step_last, if_neg hd, logger_step_sh]; exact h
      have := ih (logger_task_step w) h2 hn
      rw [run_cons]; simp only [step]
      rw [this.1, h1]; exact ⟨rfl, this.2⟩

/-- Along any run the level of `gpio4_state` changes parity with the toggler steps. -/
theorem run_gpio4 (es : List Event) :
    ∀ w : World, active (run w es).sh.gpio4_state =
      (active w.sh.gpio4_state + togglerSteps es) % 2 := by
  induction es with
  | nil =>
    intro w
    have := active_le_one w.sh.gpio4_state
    simp only [run_nil, togglerSteps, List.count_nil]; omega
  | cons e es ih =>
    intro w
    rw [run_cons, ih]
    cases e with
    | toggler =>
      have h1 := active_le_one w.sh.gpio4_state
      simp only [step, gpio4_step_gpio4, active_lnot, togglerSteps_toggler]
      generalize active w.sh.gpio4_state = a at h1 ⊢
      omega
    | logger => simp only [step, logger_step_sh, togglerSteps_logger]
    | poke p => simp only [step, togglerSteps_poke]

/-! ## The finer-grained toggler against the atomic one -/

theorem gpio4_step_sc_eq (sc : Effect → Nat) (w : World) :
    gpio4_task_step_sc sc w = { world := gpio4_task_step w, halted := none } := by
  unfold gpio4_task_step_sc gpio4_task_step; rfl

theorem gpio4_step_reads_eq (w : World) :
    gpio4_task_step_reads w w.sh.gpio4_toggle_delay_ms w.sh.gpio4_toggle_delay_ms =
      gpio4_task_step w := by
  unfold gpio4_task_step_reads gpio4_task_step; dsimp only; split <;> rfl

theorem gpio4_step_reads_ms (w : World) (r1 r2 : Nat) :
    (gpio4_task_step_reads w r1 r2).sh.ms_elapsed = (w.sh.ms_elapsed + r1) % U32 := by
  unfold gpio4_task_step_reads; dsimp only; split <;> rfl

theorem lastTogglerSleep_concat (t : List Effect) (ms : Nat) :
    lastTogglerSleep (t ++ [Effect.wake_after_ms TaskId.gpio4 ms]) = some ms := by
  unfold lastTogglerSleep; rw [List.foldl_append]; rfl

theorem gpio4_step_reads_sleep (w : World) (r1 r2 : Nat) :
    lastTogglerSleep (gpio4_task_step_reads w r1 r2).trace = some r2 := by
  unfold gpio4_task_step_reads; dsimp only
  exact lastTogglerSleep_concat _ _

/-! ## Startup and the driven levels -/

theorem Init_halted_none (st : InitStatuses) (w : World) (h : (Init st w).halted = none) :
    st.select4 = RTEMS_SUCCESSFUL ∧ st.select18 = RTEMS_SUCCESSFUL := by
  unfold Init at h; dsimp only at h
  by_cases h1 : st.select4 = RTEMS_SUCCESSFUL
  · by_cases h2 : st.select18 = RTEMS_SUCCESSFUL
    · exact ⟨h1, h2⟩
    · rw [if_neg (not_not.mpr h1), if_pos h2] at h; exact absurd h (Option.some_ne_none _)
  · rw [if_pos h1] at h; exact absurd h (Option.some_ne_none _)

theorem Init_ok_sh (st : InitStatuses) (w : World)
    (h1 : st.select4 = RTEMS_SUCCESSFUL) (h2 : st.select18 = RTEMS_SUCCESSFUL) :
    (Init st w).world.sh = { w.sh with gpio4_state := 0, gpio18_state := 0 } := by
  unfold Init; dsimp only
  rw [if_neg (not_not.mpr h1), if_neg (not_not.mpr h2)]

theorem Init_ok_lastDriven (st : InitStatuses)
    (h1 : st.select4 = RTEMS_SUCCESSFUL) (h2 : st.select18 = RTEMS_SUCCESSFUL) :
    lastDriven GPIO_BANK GPIO4 (Init st initial).world.trace = some false ∧
    lastDriven GPIO_BANK GPIO18 (Init st initial).world.trace = some false := by
  unfold Init; dsimp only
  rw [if_neg (not_not.mpr h1), if_neg (not_not.mpr h2)]
  exact ⟨rfl, rfl⟩

theorem gpio4_step_trace (w : World) :
    (gpio4_task_step w).trace =
      w.trace ++
        (if w.sh.gpio4_state = 0 then
          [Effect.gpio_set GPIO_BANK GPIO4,
           Effect.wake_after_ms TaskId.gpio4 w.sh.gpio4_toggle_delay_ms]
        else
          [Effect.gpio_clear GPIO_BANK GPIO4,
           (if w.sh.gpio18_state = 0 then Effect.gpio_set GPIO_BANK GPIO18
            else Effect.gpio_clear GPIO_BANK GPIO18),
           Effect.wake_after_ms TaskId.gpio4 w.sh.gpio4_toggle_delay_ms]) := by
  unfold gpio4_task_step; dsimp only
  by_cases h : w.sh.gpio4_state = 0
  · simp [lnot, h]
  · by_cases h18 : w.sh.gpio18_state = 0 <;> simp [lnot, h, h18]

theorem lastDriven_append (bank pin : Nat) (t l : List Effect) :
    lastDriven bank pin (t ++ l) =
      l.foldl
        (fun acc e =>
          match e with
          | Effect.gpio_set b p => if b = bank ∧ p = pin then some true else acc
          | Effect.gpio_clear b p => if b = bank ∧ p = pin then some false else acc
          | _ => acc)
        (lastDriven bank pin t) := by
  unfold lastDriven; rw [List.foldl_append]

theorem gpio4_step_pinsMatch (w : World) (h : PinsMatch w) : PinsMatch (gpio4_task_step w) := by
  unfold PinsMatch at *
  rw [gpio4_step_trace, gpio4_step_gpio4, gpio4_step_gpio18, lastDriven_append,
    lastDriven_append, h.1, h.2]
  by_cases h4 : w.sh.gpio4_state = 0
  · simp [h4, lnot, GPIO_BANK, GPIO4, GPIO18]
  · by_cases h18 : w.sh.gpio18_state = 0 <;>
      simp [h4, h18, lnot, GPIO_BANK, GPIO4, GPIO18]

theorem logger_step_pinsMatch (w : World) (h : PinsMatch w) :
    PinsMatch (logger_task_step w) := by
  unfold PinsMatch at *
  rw [logger_step_trace, logger_step_sh, lastDriven_append, lastDriven_append, h.1, h.2]
  by_cases hd : logger_due w = true <;> simp [hd]

theorem step_pinsMatch (w : World) (e : Event) (h : PinsMatch w) : PinsMatch (step w e) := by
  cases e with
  | toggler => exact gpio4_step_pinsMatch w h
  | logger => exact logger_step_pinsMatch w h
  | poke p => exact h

theorem run_pinsMatch (es : List Event) : ∀ w : World, PinsMatch w → PinsMatch (run w es) := by
  induction es with
  | nil => intro w h; exact h
  | cons e es ih => intro w h; exact ih _ (step_pinsMatch w e h)

/-! ## Accumulated time since a report -/

/-- Along any run `ms_elapsed` advances, modulo `2^32`, by the added milliseconds. -/
theorem run_addedMs (es : List Event) :
    ∀ w : World, (run w es).sh.ms_elapsed % U32 =
      (w.sh.ms_elapsed + addedMs w es) % U32 := by
  induction es with
  | nil => intro w; rfl
  | cons e es ih =>
    intro w
    rw [run_cons, ih]
    cases e with
    | toggler =>
      simp only [addedMs, step, gpio4_step_ms]
      unfold U32; omega
    | logger => simp only [addedMs, step, logger_step_sh]
    | poke p => simp only [addedMs, step]

theorem step_reports_length (w : World) (e : Event) :
    (reports w).length ≤ (reports (step w e)).length := by
  cases e with
  | toggler => simp only [step]; rw [gpio4_step_reports]
  | logger => simp only [step]; rw [logger_step_reports, List.length_append]; omega
  | poke p => exact Nat.le_refl _

theorem run_reports_length (es : List Event) :
    ∀ w : World, (reports w).length ≤ (reports (run w es)).length := by
  induction es with
  | nil => intro w; exact Nat.le_refl _
  | cons e es ih =>
    intro w
    exact Nat.le_trans (step_reports_length w e) (ih (step w e))

/-- A step that prints nothing keeps the logger's baseline. -/
theorem step_last_of_quiet (w : World) (e : Event)
    (h : (reports (step w e)).length = (reports w).length) :
    (step w e).last_ms_reported = w.last_ms_reported := by
  cases e with
  | toggler => exact gpio4_step_last w
  | poke p => rfl
  | logger =>
    simp only [step] at h ⊢
    rw [logger_step_reports, List.length_append] at h
    rw [logger_step_last]
    by_cases hd : logger_due w = true
    · rw [if_pos hd] at h; simp at h
    · rw [if_neg hd]

/-- A run that prints nothing keeps the logger's baseline. -/
theorem run_last_of_quiet (es : List Event) :
    ∀ w : World, reports (run w es) = reports w →
      (run w es).last_ms_reported = w.last_ms_reported := by
  induction es with
  | nil => intro w _; rfl
  | cons e es ih =>
    intro w h
    rw [run_cons] at h ⊢
    have h1 := step_reports_length w e
    have h2 := run_reports_length es (step w e)
    have h3 : (reports (step w e)).length = (reports w).length := by
      rw [h] at h2; omega
    have h4 : reports (run (step w e) es) = reports (step w e) := by
      cases e with
      | toggler => simp only [step] at h ⊢; rw [gpio4_step_reports]; exact h
      | poke p => exact h
      | logger =>
        simp only [step] at h h3 ⊢
        rw [logger_step_reports, List.length_append] at h3
        rw [logger_step_reports]
        by_cases hd : logger_due w = true
        · rw [if_pos hd] at h3; simp at h3
        · rw [if_neg hd, List.append_nil]; exact h
    rw [ih (step w e) h4, step_last_of_quiet w e h3]

/-! ## C1 -/

/-- C1 fails as stated: in the well-formed state `counterFull` (A active,
`toggle_counter = 4294967295`) one iteration of `gpio4_task` leaves
`toggle_counter` at 0, which is not the old value plus 1. -/
theorem toggler_step_counter_wraps :
    counterFull.wf ∧ counterFull.sh.gpio4_state ≠ 0 ∧
      (gpio4_task_step counterFull).sh.toggle_counter = 0 ∧
      (gpio4_task_step counterFull).sh.toggle_counter ≠
        counterFull.sh.toggle_counter + 1 := by
  decide

/-- C1 (amended): one iteration of `gpio4_task` taken with `gpio4_state` active
flips `gpio18_state` and sets `toggle_counter` to `(toggle_counter + 1) mod 2^32`,
which is an increase of exactly 1 unless the counter held `2^32 - 1`; taken with
`gpio4_state` inactive it leaves both unchanged.  Hence `gpio18_state` changes in
a step exactly when that step takes A from active to inactive. -/
theorem toggler_step_secondary_effect (w : World) :
    (w.sh.gpio4_state ≠ 0 →
      (gpio4_task_step w).sh.gpio18_state = lnot w.sh.gpio18_state ∧
      ((gpio4_task_step w).sh.gpio18_state ≠ 0 ↔ w.sh.gpio18_state = 0) ∧
      (gpio4_task_step w).sh.toggle_counter = (w.sh.toggle_counter + 1) % U32 ∧
      (w.sh.toggle_counter + 1 < U32 →
        (gpio4_task_step w).sh.toggle_counter = w.sh.toggle_counter + 1)) ∧
    (w.sh.gpio4_state = 0 →
      (gpio4_task_step w).sh.gpio18_state = w.sh.gpio18_state ∧
      (gpio4_task_step w).sh.toggle_counter = w.sh.toggle_counter) ∧
    ((gpio4_task_step w).sh.gpio18_state ≠ w.sh.gpio18_state ↔
      (w.sh.gpio4_state ≠ 0 ∧ (gpio4_task_step w).sh.gpio4_state = 0)) := by
  refine ⟨fun h => ?_, fun h => ?_, gpio4_step_gpio18_ne_iff w⟩
  · rw [gpio4_step_gpio18, gpio4_step_counter, if_neg h, if_neg h]
    refine ⟨rfl, ?_, rfl, fun hlt => Nat.mod_eq_of_lt hlt⟩
    have := lnot_eq_zero_iff w.sh.gpio18_state
    constructor
    · intro h1; by_contra h2; exact h1 (this.mpr h2)
    · intro h1 h2; exact (this.mp h2) h1
  · rw [gpio4_step_gpio18, gpio4_step_counter, if_pos h, if_pos h]
    exact ⟨rfl, rfl⟩

/-- C1 at concrete inputs: from the initial globals with A switched on, the step
turns B on and counts 1; from the initial globals (A off) it changes neither. -/
theorem toggler_step_secondary_effect_witness :
    ((gpio4_task_step
        { initial with sh := { initial.sh with gpio4_state := 1 } }).sh.gpio18_state = 1 ∧
      (gpio4_task_step
        { initial with sh := { initial.sh with gpio4_state := 1 } }).sh.toggle_counter = 1) ∧
    ((gpio4_task_step initial).sh.gpio18_state = 0 ∧
      (gpio4_task_step initial).sh.toggle_counter = 0) := by
  have h1 := (toggler_step_secondary_effect
    { initial with sh := { initial.sh with gpio4_state := 1 } }).1 (by decide)
  have h2 := (toggler_step_secondary_effect initial).2.1 rfl
  exact ⟨⟨h1.1, h1.2.2.1⟩, h2⟩

/-! ## C2 -/

/-- C2 fails as stated: after the `2^33` toggler steps of `longRun` from the
initial state, `2^32` of them took A from active to inactive, and
`toggle_counter` is 0, not that number. -/
theorem run_counter_wraps :
    togglerSteps longRun = 8589934592 ∧
      fallingEdges initial longRun = 4294967296 ∧
      (run initial longRun).sh.toggle_counter = 0 ∧
      (run initial longRun).sh.toggle_counter ≠ fallingEdges initial longRun := by
  have hN : togglerSteps longRun = 8589934592 := List.count_replicate_self _ _
  have hE : fallingEdges initial longRun = 4294967296 := by
    rw [fallingEdges_eq, hN]; decide
  have hC : (run initial longRun).sh.toggle_counter = 0 := by
    have h1 := run_counter longRun initial
    have h2 : (run initial longRun).sh.toggle_counter < U32 :=
      (run_wf longRun initial initial_wf).1.2.2.2.1
    rw [hE, Nat.mod_eq_of_lt h2] at h1
    rw [h1]; decide
  refine ⟨hN, hE, hC, ?_⟩
  rw [hC, hE]; decide

/-- C2 (amended): in every run from the initial state, with iterations of the
logger and writes of the period interleaved anywhere, the number of steps that
took `gpio4_state` from active to inactive is `floor(N/2)` for `N` toggler
steps; `toggle_counter` equals that number modulo `2^32` (the number itself
while `N < 2^33`); `gpio18_state` changed in exactly that many steps; and
`gpio18_state` is active iff `toggle_counter` is odd. -/
theorem run_counter_counts_falling_edges (es : List Event) :
    fallingEdges initial es = togglerSteps es / 2 ∧
    (run initial es).sh.toggle_counter = fallingEdges initial es % U32 ∧
    (togglerSteps es < 2 * U32 →
      (run initial es).sh.toggle_counter = fallingEdges initial es) ∧
    gpio18Flips initial es = fallingEdges initial es ∧
    ((run initial es).sh.gpio18_state ≠ 0 ↔
      (run initial es).sh.toggle_counter % 2 = 1) := by
  have hE : fallingEdges initial es = togglerSteps es / 2 := by
    rw [fallingEdges_eq]; rfl
  have hlt : (run initial es).sh.toggle_counter < U32 :=
    (run_wf es initial initial_wf).1.2.2.2.1
  have hC : (run initial es).sh.toggle_counter = fallingEdges initial es % U32 := by
    have h1 := run_counter es initial
    rw [Nat.mod_eq_of_lt hlt] at h1
    rw [h1]
    show (0 + fallingEdges initial es) % U32 = _
    rw [Nat.zero_add]
  refine ⟨hE, hC, fun hN => ?_, gpio18Flips_eq es initial, ?_⟩
  · rw [hC, hE]
    apply Nat.mod_eq_of_lt
    unfold U32 at hN ⊢; omega
  · have hG := run_gpio18 es initial
    have hA := active_eq_one_iff (run initial es).sh.gpio18_state
    rw [← hA, hG, hC]
    show (0 + fallingEdges initial es) % 2 = 1 ↔ _
    unfold U32; omega

/-- C2 at a concrete run: three toggler steps with a logger step and a write of
the period in between leave `toggle_counter = 1` and B active. -/
theorem run_counter_counts_falling_edges_witness :
    togglerSteps [Event.toggler, Event.logger, Event.poke 7, Event.toggler, Event.toggler] = 3 ∧
    (run initial
      [Event.toggler, Event.logger, Event.poke 7, Event.toggler,
        Event.toggler]).sh.toggle_counter = 1 ∧
    (run initial
      [Event.toggler, Event.logger, Event.poke 7, Event.toggler,
        Event.toggler]).sh.gpio18_state ≠ 0 := by
  have h := run_counter_counts_falling_edges
    [Event.toggler, Event.logger, Event.poke 7, Event.toggler, Event.toggler]
  have h3 := h.2.2.1 (by decide)
  refine ⟨by decide, ?_, ?_⟩
  · rw [h3, h.1]; decide
  · rw [h.2.2.2.2, h3, h.1]; decide

/-! ## C3 -/

/-- C3 fails as stated: from the well-formed state `elapsedNearWrap` (A inactive,
period 500, `ms_elapsed = 4294967000`) one full toggle cycle leaves
`ms_elapsed = 704`, not the old value plus `2 * 500`. -/
theorem toggle_cycle_elapsed_wraps :
    elapsedNearWrap.wf ∧ elapsedNearWrap.sh.gpio4_state = 0 ∧
      (toggleCycle elapsedNearWrap).sh.ms_elapsed = 704 ∧
      (toggleCycle elapsedNearWrap).sh.ms_elapsed ≠
        elapsedNearWrap.sh.ms_elapsed + 2 * elapsedNearWrap.sh.gpio4_toggle_delay_ms := by
  decide

/-- C3 (amended): from any state with `gpio4_state` inactive, one full toggle
cycle with the period `p` unchanged ends with `gpio4_state` inactive,
`gpio18_state` flipped, `toggle_counter` increased by 1 modulo `2^32` and
`ms_elapsed` increased by `2 * p` modulo `2^32`; the increases are exact whenever
the sums stay below `2^32`. -/
theorem toggle_cycle_effect (w : World) (h : w.sh.gpio4_state = 0) :
    (toggleCycle w).sh.gpio4_state = 0 ∧
    (toggleCycle w).sh.gpio18_state = lnot w.sh.gpio18_state ∧
    (toggleCycle w).sh.toggle_counter = (w.sh.toggle_counter + 1) % U32 ∧
    (toggleCycle w).sh.ms_elapsed =
      (w.sh.ms_elapsed + 2 * w.sh.gpio4_toggle_delay_ms) % U32 ∧
    (toggleCycle w).sh.gpio4_toggle_delay_ms = w.sh.gpio4_toggle_delay_ms ∧
    (w.sh.toggle_counter + 1 < U32 →
      (toggleCycle w).sh.toggle_counter = w.sh.toggle_counter + 1) ∧
    (w.sh.ms_elapsed + 2 * w.sh.gpio4_toggle_delay_ms < U32 →
      (toggleCycle w).sh.ms_elapsed =
        w.sh.ms_elapsed + 2 * w.sh.gpio4_toggle_delay_ms) := by
  have h1 : (gpio4_task_step w).sh.gpio4_state ≠ 0 := by
    rw [gpio4_step_gpio4, h]; decide
  have hg : (toggleCycle w).sh.gpio4_state = 0 := by
    unfold toggleCycle; rw [gpio4_step_gpio4, lnot_eq_zero_iff]; exact h1
  have hb : (toggleCycle w).sh.gpio18_state = lnot w.sh.gpio18_state := by
    unfold toggleCycle
    rw [gpio4_step_gpio18, if_neg h1, gpio4_step_gpio18, if_pos h]
  have hc : (toggleCycle w).sh.toggle_counter = (w.sh.toggle_counter + 1) % U32 := by
    unfold toggleCycle
    rw [gpio4_step_counter, if_neg h1, gpio4_step_counter, if_pos h]
  have hm : (toggleCycle w).sh.ms_elapsed =
      (w.sh.ms_elapsed + 2 * w.sh.gpio4_toggle_delay_ms) % U32 := by
    unfold toggleCycle
    rw [gpio4_step_ms, gpio4_step_ms, gpio4_step_delay]
    unfold U32; omega
  have hd : (toggleCycle w).sh.gpio4_toggle_delay_ms = w.sh.gpio4_toggle_delay_ms := by
    unfold toggleCycle; rw [gpio4_step_delay, gpio4_step_delay]
  refine ⟨hg, hb, hc, hm, hd, fun hlt => ?_, fun hlt => ?_⟩
  · rw [hc]; exact Nat.mod_eq_of_lt hlt
  · rw [hm]; exact Nat.mod_eq_of_lt hlt

/-- C3, Scenario A: from the initial state (A off, B off, count 0, elapsed 0,
period 500) one full toggle cycle gives A off, B on, count 1, elapsed 1000. -/
theorem toggle_cycle_scenario_A :
    initial.sh.gpio4_state = 0 ∧ initial.sh.gpio18_state = 0 ∧
    initial.sh.toggle_counter = 0 ∧ initial.sh.ms_elapsed = 0 ∧
    initial.sh.gpio4_toggle_delay_ms = 500 ∧
    (toggleCycle initial).sh.gpio4_state = 0 ∧
    (toggleCycle initial).sh.gpio18_state = 1 ∧
    (toggleCycle initial).sh.toggle_counter = 1 ∧
    (toggleCycle initial).sh.ms_elapsed = 1000 := by
  have h := toggle_cycle_effect initial rfl
  exact ⟨rfl, rfl, rfl, rfl, rfl, h.1, h.2.1, h.2.2.2.2.2.1 (by decide),
    h.2.2.2.2.2.2 (by decide)⟩

/-! ## C4 -/

/-- C4 fails as stated: in the well-formed state `elapsedNearWrap` one toggler
step takes `ms_elapsed` from 4294967000 down to 204, and in the well-formed
state `counterFull` one toggler step takes `toggle_counter` from 4294967295
down to 0. -/
theorem toggler_step_not_monotone :
    elapsedNearWrap.wf ∧ counterFull.wf ∧
      (gpio4_task_step elapsedNearWrap).sh.ms_elapsed = 204 ∧
      (gpio4_task_step elapsedNearWrap).sh.ms_elapsed < elapsedNearWrap.sh.ms_elapsed ∧
      (gpio4_task_step counterFull).sh.toggle_counter <
        counterFull.sh.toggle_counter := by
  decide

/-- C4 (amended): in every well-formed state a logger step changes neither
`ms_elapsed` nor `toggle_counter`; a toggler step leaves `ms_elapsed` at least
its old value exactly when `ms_elapsed + period < 2^32`, and `toggle_counter`
at least its old value exactly when `gpio4_state` was inactive or
`toggle_counter + 1 < 2^32`.  In the remaining cases the variable wraps modulo
`2^32` and the new value is smaller. -/
theorem counters_monotone_unless_wrap (w : World) (h : w.wf) :
    (logger_task_step w).sh.ms_elapsed = w.sh.ms_elapsed ∧
    (logger_task_step w).sh.toggle_counter = w.sh.toggle_counter ∧
    (w.sh.ms_elapsed ≤ (gpio4_task_step w).sh.ms_elapsed ↔
      w.sh.ms_elapsed + w.sh.gpio4_toggle_delay_ms < U32) ∧
    (w.sh.toggle_counter ≤ (gpio4_task_step w).sh.toggle_counter ↔
      (w.sh.gpio4_state = 0 ∨ w.sh.toggle_counter + 1 < U32)) := by
  obtain ⟨⟨h1, _, _, h4, h5⟩, _⟩ := h
  refine ⟨by rw [logger_step_sh], by rw [logger_step_sh], ?_, ?_⟩
  · rw [gpio4_step_ms]
    unfold U32 at *; omega
  · rw [gpio4_step_counter]
    by_cases hz : w.sh.gpio4_state = 0
    · simp [hz]
    · simp only [hz, if_false, false_or]
      unfold U32 at *; omega

/-- C4 at a concrete input: from the initial state the toggler step takes
`ms_elapsed` from 0 to a value that is not smaller, and the counter likewise. -/
theorem counters_monotone_unless_wrap_witness :
    initial.sh.ms_elapsed ≤ (gpio4_task_step initial).sh.ms_elapsed ∧
    initial.sh.toggle_counter ≤ (gpio4_task_step initial).sh.toggle_counter := by
  have h := counters_monotone_unless_wrap initial initial_wf
  exact ⟨h.2.2.1.mpr (by decide), h.2.2.2.mpr (Or.inl rfl)⟩

/-! ## C5 -/

/-- C5 fails as stated: in the well-formed state `hugePeriod` (period
4294967295, outside 1..10000, `ms_elapsed = 500`) one toggler step leaves
`ms_elapsed = 499`, not the old value plus the period. -/
theorem toggler_step_elapsed_wraps :
    hugePeriod.wf ∧
      (gpio4_task_step hugePeriod).sh.ms_elapsed = 499 ∧
      (gpio4_task_step hugePeriod).sh.ms_elapsed ≠
        hugePeriod.sh.ms_elapsed + hugePeriod.sh.gpio4_toggle_delay_ms := by
  decide

/-- C5 (amended): in every state and in either branch, one toggler step sets
`ms_elapsed` to `(ms_elapsed + gpio4_toggle_delay_ms) mod 2^32`, an increase by
exactly the period whenever the sum is below `2^32`, and leaves
`gpio4_toggle_delay_ms` unchanged; the period is used as it is, inside or
outside 1..10000.  Hence over any run of task steps from `ms_elapsed = 0` with
the period `p` never written, `ms_elapsed` after `N` toggler steps is
`(N * p) mod 2^32`, which is `N * p` whenever `N * p < 2^32`. -/
theorem toggler_step_elapsed (w : World) :
    (gpio4_task_step w).sh.ms_elapsed =
      (w.sh.ms_elapsed + w.sh.gpio4_toggle_delay_ms) % U32 ∧
    (gpio4_task_step w).sh.gpio4_toggle_delay_ms = w.sh.gpio4_toggle_delay_ms ∧
    (w.sh.ms_elapsed + w.sh.gpio4_toggle_delay_ms < U32 →
      (gpio4_task_step w).sh.ms_elapsed =
        w.sh.ms_elapsed + w.sh.gpio4_toggle_delay_ms) ∧
    (∀ es : List Event, (∀ e ∈ es, e.isTask = true) → w.sh.ms_elapsed = 0 →
      (run w es).sh.gpio4_toggle_delay_ms = w.sh.gpio4_toggle_delay_ms ∧
      (run w es).sh.ms_elapsed = (togglerSteps es * w.sh.gpio4_toggle_delay_ms) % U32 ∧
      (togglerSteps es * w.sh.gpio4_toggle_delay_ms < U32 →
        (run w es).sh.ms_elapsed = togglerSteps es * w.sh.gpio4_toggle_delay_ms)) := by
  refine ⟨gpio4_step_ms w, gpio4_step_delay w, fun hlt => ?_, fun es hes h0 => ?_⟩
  · rw [gpio4_step_ms]; exact Nat.mod_eq_of_lt hlt
  · have hr := run_elapsed es w hes
    have hb : (run w es).sh.ms_elapsed < U32 :=
      run_ms_lt es w (by rw [h0]; decide)
    rw [Nat.mod_eq_of_lt hb, h0, Nat.zero_add] at hr
    exact ⟨hr.1, hr.2, fun hlt => by rw [hr.2]; exact Nat.mod_eq_of_lt hlt⟩

/-- C5 at concrete inputs: from the initial state one step adds the period 500,
and three toggler steps with logger steps in between give `3 * 500`; with the
period 20000, outside the documented range, one step adds 20000. -/
theorem toggler_step_elapsed_witness :
    (gpio4_task_step initial).sh.ms_elapsed = 500 ∧
    (run initial [Event.toggler, Event.logger, Event.toggler, Event.logger,
      Event.toggler]).sh.ms_elapsed = 1500 ∧
    (gpio4_task_step
      { initial with
        sh := { initial.sh with gpio4_toggle_delay_ms := 20000 } }).sh.ms_elapsed = 20000 := by
  refine ⟨(toggler_step_elapsed initial).2.2.1 (by decide), ?_, ?_⟩
  · have h := ((toggler_step_elapsed initial).2.2.2
      [Event.toggler, Event.logger, Event.toggler, Event.logger, Event.toggler]
      (by decide) rfl).2.2 (by decide)
    rw [h]; decide
  · exact (toggler_step_elapsed
      { initial with sh := { initial.sh with gpio4_toggle_delay_ms := 20000 } }).2.2.1
      (by decide)

/-! ## C6 -/

/-- C6: in every state and for every baseline, one iteration of `logger_task`
prints exactly one line iff the `uint32_t` difference
`ms_elapsed - last_ms_reported` is at least 500.  When it prints, the line holds
the current `ms_elapsed`, the label ON for A iff `gpio4_state` is non-zero, the
label ON for B iff `gpio18_state` is non-zero, and the current
`toggle_counter`, and the new baseline is the current `ms_elapsed`.  When it
does not print, the only call made is the sleep, and the baseline is kept. -/
theorem logger_step_emits_iff_due (w : World) :
    ((reports (logger_task_step w)).length = (reports w).length + 1 ↔
      500 ≤ u32sub w.sh.ms_elapsed w.last_ms_reported) ∧
    (500 ≤ u32sub w.sh.ms_elapsed w.last_ms_reported →
      (logger_task_step w).trace =
        w.trace ++ [Effect.wake_after_ms TaskId.logger 100,
          Effect.printf
            { ms := w.sh.ms_elapsed,
              gpio4 := if w.sh.gpio4_state ≠ 0 then "ON " else "OFF",
              gpio18 := if w.sh.gpio18_state ≠ 0 then "ON " else "OFF",
              toggles := w.sh.toggle_counter }] ∧
      reports (logger_task_step w) =
        reports w ++
          [{ ms := w.sh.ms_elapsed,
             gpio4 := if w.sh.gpio4_state ≠ 0 then "ON " else "OFF",
             gpio18 := if w.sh.gpio18_state ≠ 0 then "ON " else "OFF",
             toggles := w.sh.toggle_counter }] ∧
      (logger_task_step w).last_ms_reported = w.sh.ms_elapsed) ∧
    (u32sub w.sh.ms_elapsed w.last_ms_reported < 500 →
      (logger_task_step w).trace = w.trace ++ [Effect.wake_after_ms TaskId.logger 100] ∧
      reports (logger_task_step w) = reports w ∧
      (logger_task_step w).last_ms_reported = w.last_ms_reported) := by
  have hd := logger_due_iff w
  refine ⟨?_, fun h => ?_, fun h => ?_⟩
  · rw [logger_step_reports]
    by_cases h : logger_due w = true
    · simp [h, hd.mp h]
    · have : ¬ 500 ≤ u32sub w.sh.ms_elapsed w.last_ms_reported := fun h2 => h (hd.mpr h2)
      simp [h, this]
  · have h1 := hd.mpr h
    rw [logger_step_trace, logger_step_reports, logger_step_last, if_pos h1, if_pos h1,
      if_pos h1]
    exact ⟨rfl, rfl, rfl⟩
  · have h1 : ¬ logger_due w = true := fun h2 => absurd (hd.mp h2) (by omega)
    rw [logger_step_trace, logger_step_reports, logger_step_last, if_neg h1, if_neg h1,
      if_neg h1, List.append_nil]
    exact ⟨rfl, rfl, rfl⟩

/-- C6 at concrete inputs: with `ms_elapsed = 500`, A on and baseline 0 the
logger prints the line (500, ON, OFF, 0) and moves the baseline to 500; in the
initial state (difference 0) it prints nothing and keeps the baseline. -/
theorem logger_step_emits_iff_due_witness :
    (reports (logger_task_step (gpio4_task_step initial)) =
        [{ ms := 500, gpio4 := "ON ", gpio18 := "OFF", toggles := 0 }] ∧
      (logger_task_step (gpio4_task_step initial)).last_ms_reported = 500) ∧
    (reports (logger_task_step initial) = [] ∧
      (logger_task_step initial).last_ms_reported = 0) := by
  have h1 := (logger_step_emits_iff_due (gpio4_task_step initial)).2.1 (by decide)
  have h2 := (logger_step_emits_iff_due initial).2.2 (by decide)
  exact ⟨⟨h1.2.1, h1.2.2⟩, ⟨h2.2.1, h2.2.2⟩⟩

/-! ## C7 -/

/-- C7: a logger step that prints stores a baseline different from the one it
replaces; after a logger step that printed, no further line is printed until a
toggler step is taken; and in every run from the initial state (baseline 0) no
two neighbouring recorded baselines, the starting 0 included, are equal. -/
theorem consecutive_reports_differ :
    (∀ w : World, reports (logger_task_step w) ≠ reports w →
      (logger_task_step w).last_ms_reported ≠ w.last_ms_reported) ∧
    (∀ (w : World) (es : List Event), reports (logger_task_step w) ≠ reports w →
      togglerSteps es = 0 →
      reports (run (logger_task_step w) es) = reports (logger_task_step w)) ∧
    (∀ es : List Event,
      List.Chain' (fun a b : Nat => a ≠ b) (0 :: baselines (run initial es))) := by
  have hdue : ∀ w : World, reports (logger_task_step w) ≠ reports w → logger_due w = true := by
    intro w h
    by_contra hd
    exact h (by rw [logger_step_reports, if_neg hd, List.append_nil])
  refine ⟨fun w h => ?_, fun w es h hn => ?_, fun es => ?_⟩
  · have hd := hdue w h
    rw [logger_step_last, if_pos hd]
    exact logger_due_ne w hd
  · have hd := hdue w h
    have h2 : (logger_task_step w).last_ms_reported = (logger_task_step w).sh.ms_elapsed := by
      rw [logger_step_last, if_pos hd, logger_step_sh]
    exact (run_quiet es (logger_task_step w) h2 hn).1
  · have h0 : BaselineInv initial := by
      unfold BaselineInv baselines reports initial
      exact ⟨List.chain'_singleton _, rfl⟩
    exact (run_baselineInv es initial h0).1

/-- C7 at a concrete run: toggler, logger, logger, toggler, logger from the
initial state records the baselines 500 and 1000, the second logger step
printing nothing. -/
theorem consecutive_reports_differ_witness :
    baselines (run initial
      [Event.toggler, Event.logger, Event.logger, Event.toggler, Event.logger]) = [500, 1000] ∧
    List.Chain' (fun a b : Nat => a ≠ b)
      (0 :: baselines (run initial
        [Event.toggler, Event.logger, Event.logger, Event.toggler, Event.logger])) ∧
    (logger_task_step (gpio4_task_step initial)).last_ms_reported ≠
      (gpio4_task_step initial).last_ms_reported :=
  ⟨by decide, consecutive_reports_differ.2.2 _,
    consecutive_reports_differ.1 (gpio4_task_step initial) (by decide)⟩

/-! ## C8 -/

set_option maxRecDepth 20000 in
/-- C8, Scenario B: with the period 500 from the initial state, the toggler
running at 0, 500, 1000, 1500 ms and the logger polling every 100 ms from 100
to 2000 ms, `toggle_counter` is 2 after 2000 ms and the logger has printed at
least 3 lines (it has printed 4, at elapsed 500, 1000, 1500 and 2000),
whichever task runs first when both are due. -/
theorem scenario_B (togglerFirst : Bool) :
    initial.sh.gpio4_toggle_delay_ms = 500 ∧
    togglerSteps (scenarioB togglerFirst) = 4 ∧
    (scenarioB togglerFirst).count Event.logger = 20 ∧
    (run initial (scenarioB togglerFirst)).sh.toggle_counter = 2 ∧
    3 ≤ (reports (run initial (scenarioB togglerFirst))).length ∧
    baselines (run initial (scenarioB togglerFirst)) = [500, 1000, 1500, 2000] := by
  cases togglerFirst <;> decide

/-! ## C9 -/

/-- C9: an iteration of `logger_task`, printing or not, leaves each of the five
globals unchanged and changes only its local baseline and the list of calls
made; so the globals read after any number of logger iterations are the ones
read before, and a task iteration that changes a global is an iteration of
`gpio4_task`. -/
theorem logger_step_frame (w : World) :
    ((logger_task_step w).sh.gpio4_toggle_delay_ms = w.sh.gpio4_toggle_delay_ms ∧
      (logger_task_step w).sh.gpio4_state = w.sh.gpio4_state ∧
      (logger_task_step w).sh.gpio18_state = w.sh.gpio18_state ∧
      (logger_task_step w).sh.toggle_counter = w.sh.toggle_counter ∧
      (logger_task_step w).sh.ms_elapsed = w.sh.ms_elapsed) ∧
    logger_task_step w =
      { w with
        last_ms_reported := (logger_task_step w).last_ms_reported,
        trace := (logger_task_step w).trace } ∧
    (∀ es : List Event, (∀ e ∈ es, e = Event.logger) → (run w es).sh = w.sh) ∧
    (∀ e : Event, e.isTask = true → (step w e).sh ≠ w.sh → e = Event.toggler) := by
  have hs := logger_step_sh w
  refine ⟨by rw [hs]; exact ⟨rfl, rfl, rfl, rfl, rfl⟩, ?_, ?_, ?_⟩
  · unfold logger_task_step; dsimp only; split <;> rfl
  · intro es
    induction es generalizing w with
    | nil => intro _; rfl
    | cons e es ih =>
      intro h
      have he : e = Event.logger := h e (List.mem_cons_self _ _)
      subst he
      rw [run_cons]; simp only [step]
      rw [ih (logger_task_step w) (logger_step_sh _)
        (fun x hx => h x (List.mem_cons_of_mem _ hx)), logger_step_sh]
  · intro e he hne
    cases e with
    | toggler => rfl
    | logger => exact absurd hs hne
    | poke p => simp [Event.isTask] at he

/-! ## C10 -/

/-- C10: in every state, whatever the other globals hold, one iteration of
`gpio4_task` sets `gpio4_state` to 0 if it was non-zero and to 1 if it was 0, so
no iteration leaves it unchanged; along any run A is active afterwards iff the
number of toggler steps plus A's starting level is odd, that is, A alternates
with every toggler step. -/
theorem toggler_step_alternates (w : World) :
    (w.sh.gpio4_state ≠ 0 → (gpio4_task_step w).sh.gpio4_state = 0) ∧
    (w.sh.gpio4_state = 0 → (gpio4_task_step w).sh.gpio4_state = 1) ∧
    (gpio4_task_step w).sh.gpio4_state ≠ w.sh.gpio4_state ∧
    (∀ es : List Event,
      ((run w es).sh.gpio4_state ≠ 0 ↔
        (active w.sh.gpio4_state + togglerSteps es) % 2 = 1)) := by
  refine ⟨fun h => ?_, fun h => ?_, ?_, fun es => ?_⟩
  · rw [gpio4_step_gpio4, lnot_eq_zero_iff]; exact h
  · rw [gpio4_step_gpio4, h]; rfl
  · rw [gpio4_step_gpio4]; exact lnot_ne_self _
  · rw [← active_eq_one_iff, run_gpio4]

/-- C10 at concrete inputs: from the initial state (A off) the step switches A
on, and from there the next step switches it off, with the other globals at
arbitrary values. -/
theorem toggler_step_alternates_witness :
    (gpio4_task_step initial).sh.gpio4_state = 1 ∧
    (gpio4_task_step
      { initial with
        sh := { gpio4_toggle_delay_ms := 7, gpio4_state := 1, gpio18_state := 1,
                toggle_counter := 41, ms_elapsed := 9 } }).sh.gpio4_state = 0 :=
  ⟨(toggler_step_alternates initial).2.1 rfl,
    (toggler_step_alternates
      { initial with
        sh := { gpio4_toggle_delay_ms := 7, gpio4_state := 1, gpio18_state := 1,
                toggle_counter := 41, ms_elapsed := 9 } }).1 (by decide)⟩

/-! ## C11 -/

/-- C11: `Init`, run from the initial globals, halts iff the call configuring
GPIO4 or the call configuring GPIO18 as an output returns a status other than
`RTEMS_SUCCESSFUL`, whatever the other calls return.  When it halts, the status
passed to `rtems_fatal_error_occurred` is the one the failing call returned and
that call is the last one made (no clear after it, no task created).  When both
succeed the calls are, in order: configure GPIO4, clear GPIO4, configure GPIO18,
clear GPIO18, create and start `gpio4_task` (priority 1), create and start
`logger_task` (priority 2), delete the own task; priority 1 is the higher. -/
theorem Init_startup (st : InitStatuses) :
    ((Init st initial).halted ≠ none ↔
      (st.select4 ≠ RTEMS_SUCCESSFUL ∨ st.select18 ≠ RTEMS_SUCCESSFUL)) ∧
    (st.select4 ≠ RTEMS_SUCCESSFUL →
      (Init st initial).halted = some st.select4 ∧
      (Init st initial).world.trace =
        [Effect.banner, Effect.select_output GPIO_BANK GPIO4,
         Effect.fatal_error_occurred st.select4]) ∧
    (st.select4 = RTEMS_SUCCESSFUL → st.select18 ≠ RTEMS_SUCCESSFUL →
      (Init st initial).halted = some st.select18 ∧
      (Init st initial).world.trace =
        [Effect.banner, Effect.select_output GPIO_BANK GPIO4,
         Effect.gpio_clear GPIO_BANK GPIO4, Effect.select_output GPIO_BANK GPIO18,
         Effect.fatal_error_occurred st.select18]) ∧
    (st.select4 = RTEMS_SUCCESSFUL → st.select18 = RTEMS_SUCCESSFUL →
      (Init st initial).halted = none ∧
      (Init st initial).world.trace =
        [Effect.banner, Effect.select_output GPIO_BANK GPIO4,
         Effect.gpio_clear GPIO_BANK GPIO4, Effect.select_output GPIO_BANK GPIO18,
         Effect.gpio_clear GPIO_BANK GPIO18,
         Effect.task_create "G4TK" 1,
         Effect.task_start (tid_after none st.create_gpio4 "G4TK") TaskId.gpio4,
         Effect.task_create "LOGR" 2,
         Effect.task_start
           (tid_after (tid_after none st.create_gpio4 "G4TK") st.create_logger "LOGR")
           TaskId.logger,
         Effect.task_delete_self] ∧
      (st.create_gpio4 = RTEMS_SUCCESSFUL → st.create_logger = RTEMS_SUCCESSFUL →
        tid_after none st.create_gpio4 "G4TK" = some "G4TK" ∧
        tid_after (tid_after none st.create_gpio4 "G4TK") st.create_logger "LOGR" =
          some "LOGR") ∧
      (∀ p q : Nat, Effect.task_create "G4TK" p ∈ (Init st initial).world.trace →
        Effect.task_create "LOGR" q ∈ (Init st initial).world.trace →
        higherPriority p q)) := by
  have hA : st.select4 ≠ RTEMS_SUCCESSFUL →
      (Init st initial).halted = some st.select4 ∧
      (Init st initial).world.trace =
        [Effect.banner, Effect.select_output GPIO_BANK GPIO4,
         Effect.fatal_error_occurred st.select4] := by
    intro h; unfold Init; dsimp only; rw [if_pos h]; exact ⟨rfl, rfl⟩
  have hB : st.select4 = RTEMS_SUCCESSFUL → st.select18 ≠ RTEMS_SUCCESSFUL →
      (Init st initial).halted = some st.select18 ∧
      (Init st initial).world.trace =
        [Effect.banner, Effect.select_output GPIO_BANK GPIO4,
         Effect.gpio_clear GPIO_BANK GPIO4, Effect.select_output GPIO_BANK GPIO18,
         Effect.fatal_error_occurred st.select18] := by
    intro h1 h2; unfold Init; dsimp only
    rw [if_neg (not_not.mpr h1), if_pos h2]; exact ⟨rfl, rfl⟩
  have hC : st.select4 = RTEMS_SUCCESSFUL → st.select18 = RTEMS_SUCCESSFUL →
      (Init st initial).halted = none ∧
      (Init st initial).world.trace =
        [Effect.banner, Effect.select_output GPIO_BANK GPIO4,
         Effect.gpio_clear GPIO_BANK GPIO4, Effect.select_output GPIO_BANK GPIO18,
         Effect.gpio_clear GPIO_BANK GPIO18,
         Effect.task_create "G4TK" 1,
         Effect.task_start (tid_after none st.create_gpio4 "G4TK") TaskId.gpio4,
         Effect.task_create "LOGR" 2,
         Effect.task_start
           (tid_after (tid_after none st.create_gpio4 "G4TK") st.create_logger "LOGR")
           TaskId.logger,
         Effect.task_delete_self] := by
    intro h1 h2; unfold Init; dsimp only
    rw [if_neg (not_not.mpr h1), if_neg (not_not.mpr h2)]; exact ⟨rfl, rfl⟩
  refine ⟨?_, hA, hB, fun h1 h2 => ⟨(hC h1 h2).1, (hC h1 h2).2, ?_, ?_⟩⟩
  · constructor
    · intro h
      by_contra hn
      rw [not_or, not_not, not_not] at hn
      exact h (hC hn.1 hn.2).1
    · intro h
      by_cases h1 : st.select4 = RTEMS_SUCCESSFUL
      · rcases h with h | h
        · exact absurd h1 h
        · rw [(hB h1 h).1]; exact Option.some_ne_none _
      · rw [(hA h1).1]; exact Option.some_ne_none _
  · intro c1 c2
    unfold tid_after
    rw [if_pos c1, if_pos c2]; exact ⟨rfl, rfl⟩
  · intro p q hp hq
    rw [(hC h1 h2).2] at hp hq
    simp at hp hq
    unfold higherPriority
    omega

/-- C11 at concrete inputs: with every call successful `Init` does not halt and
makes the ten calls in the stated order; with status 5 from the configuration
of GPIO4 it halts with 5 right after that call; with status 7 from the
configuration of GPIO18 it halts with 7, GPIO4 cleared before and nothing after. -/
theorem Init_startup_witness :
    ((Init allSuccessful initial).halted = none ∧
      (Init allSuccessful initial).world.trace =
        [Effect.banner, Effect.select_output 0 4, Effect.gpio_clear 0 4,
         Effect.select_output 0 18, Effect.gpio_clear 0 18,
         Effect.task_create "G4TK" 1, Effect.task_start (some "G4TK") TaskId.gpio4,
         Effect.task_create "LOGR" 2, Effect.task_start (some "LOGR") TaskId.logger,
         Effect.task_delete_self]) ∧
    ((Init { allSuccessful with select4 := 5 } initial).halted = some 5 ∧
      (Init { allSuccessful with select4 := 5 } initial).world.trace =
        [Effect.banner, Effect.select_output 0 4, Effect.fatal_error_occurred 5]) ∧
    ((Init { allSuccessful with select18 := 7 } initial).halted = some 7 ∧
      (Init { allSuccessful with select18 := 7 } initial).world.trace =
        [Effect.banner, Effect.select_output 0 4, Effect.gpio_clear 0 4,
         Effect.select_output 0 18, Effect.fatal_error_occurred 7]) := by
  have h1 := (Init_startup allSuccessful).2.2.2 rfl rfl
  have h2 := (Init_startup { allSuccessful with select4 := 5 }).2.1 (by decide)
  have h3 := (Init_startup { allSuccessful with select18 := 7 }).2.2.1 rfl (by decide)
  exact ⟨⟨h1.1, h1.2.1⟩, h2, h3⟩

/-! ## C12 -/

/-- C12, the code where a drive call fails: whatever status the GPIO driver
calls return, an iteration of `gpio4_task` does not halt and is the iteration
taken with successful calls.  With every drive call returning the failure
status 10 from the initial state, the iteration goes on after the failed
`rtems_gpio_bsp_set` of GPIO4: it adds 500 to `ms_elapsed`, sleeps, and makes
no call of `rtems_fatal_error_occurred`. -/
theorem toggler_step_ignores_drive_status :
    (∀ (sc : Effect → Nat) (w : World),
      (gpio4_task_step_sc sc w).halted = none ∧
      (gpio4_task_step_sc sc w).world = gpio4_task_step w) ∧
    driveFails (Effect.gpio_set GPIO_BANK GPIO4) ≠ RTEMS_SUCCESSFUL ∧
    (gpio4_task_step_sc driveFails initial).halted = none ∧
    (gpio4_task_step_sc driveFails initial).world.sh.ms_elapsed = 500 ∧
    (gpio4_task_step_sc driveFails initial).world.trace =
      [Effect.gpio_set GPIO_BANK GPIO4, Effect.wake_after_ms TaskId.gpio4 500] := by
  refine ⟨fun sc w => ?_, by decide, ?_, ?_, ?_⟩
  · rw [gpio4_step_sc_eq]; exact ⟨rfl, rfl⟩
  · rw [gpio4_step_sc_eq]
  · rw [gpio4_step_sc_eq]; decide
  · rw [gpio4_step_sc_eq]; decide

/-! ## C13 -/

/-- C13, the code against the header comment: with the period 500 and the
logger polling after each toggler step, the lines printed carry the elapsed
values 500, 1000, 1500, 2000, so consecutive reports are 500 elapsed ms apart,
not 1000; and the counts printed are 0, 1, 1, 2, the cumulative
`toggle_counter`: between the third and the fourth report A went from on to off
once, and the fourth report prints 2. -/
theorem logger_reports_cumulative_count :
    reports (run initial pollEachStep) =
      [{ ms := 500, gpio4 := "ON ", gpio18 := "OFF", toggles := 0 },
       { ms := 1000, gpio4 := "OFF", gpio18 := "ON ", toggles := 1 },
       { ms := 1500, gpio4 := "ON ", gpio18 := "ON ", toggles := 1 },
       { ms := 2000, gpio4 := "OFF", gpio18 := "OFF", toggles := 2 }] ∧
    reports (run initial (pollEachStep.take 6)) =
      [{ ms := 500, gpio4 := "ON ", gpio18 := "OFF", toggles := 0 },
       { ms := 1000, gpio4 := "OFF", gpio18 := "ON ", toggles := 1 },
       { ms := 1500, gpio4 := "ON ", gpio18 := "ON ", toggles := 1 }] ∧
    fallingEdges (run initial (pollEachStep.take 6)) (pollEachStep.drop 6) = 1 := by
  decide

/-! ## C15 -/

/-- C15 fails as stated: from the initial state, when the read of
`gpio4_toggle_delay_ms` in line 76 returns 500 and an outside write makes the
read in line 77 return 1000, the iteration adds 500 to `ms_elapsed` and sleeps
for 1000. -/
theorem toggler_step_reads_differ :
    (gpio4_task_step_reads initial 500 1000).sh.ms_elapsed =
        initial.sh.ms_elapsed + 500 ∧
      lastTogglerSleep (gpio4_task_step_reads initial 500 1000).trace = some 1000 ∧
      (500 : Nat) ≠ 1000 := by
  decide

/-- C15 (amended): `gpio4_toggle_delay_ms` is read twice in every iteration of
`gpio4_task`.  The value added to `ms_elapsed` (modulo `2^32`) is the one
returned by the read in line 76 and the sleep duration is the one returned by
the read in line 77; they are the same value whenever the two reads return the
same value, and with no write between them the iteration is the atomic one. -/
theorem toggler_step_reads_period_twice (w : World) (r1 r2 : Nat) :
    (gpio4_task_step_reads w r1 r2).sh.ms_elapsed = (w.sh.ms_elapsed + r1) % U32 ∧
    lastTogglerSleep (gpio4_task_step_reads w r1 r2).trace = some r2 ∧
    (r1 = r2 →
      lastTogglerSleep (gpio4_task_step_reads w r1 r2).trace = some r1 ∧
      (gpio4_task_step_reads w r1 r2).sh.ms_elapsed = (w.sh.ms_elapsed + r2) % U32) ∧
    (r1 = w.sh.gpio4_toggle_delay_ms → r2 = w.sh.gpio4_toggle_delay_ms →
      gpio4_task_step_reads w r1 r2 = gpio4_task_step w) := by
  refine ⟨gpio4_step_reads_ms w r1 r2, gpio4_step_reads_sleep w r1 r2, fun h => ?_,
    fun h1 h2 => ?_⟩
  · subst h
    exact ⟨gpio4_step_reads_sleep w r1 r1, gpio4_step_reads_ms w r1 r1⟩
  · subst h1 h2; exact gpio4_step_reads_eq w

/-- C15 at a concrete input: from the initial state with both reads returning
500 the iteration adds 500 and sleeps for 500, as the atomic step does. -/
theorem toggler_step_reads_period_twice_witness :
    (gpio4_task_step_reads initial 500 500).sh.ms_elapsed = 500 ∧
    lastTogglerSleep (gpio4_task_step_reads initial 500 500).trace = some 500 ∧
    gpio4_task_step_reads initial 500 500 = gpio4_task_step initial :=
  ⟨((toggler_step_reads_period_twice initial 500 500).2.2.1 rfl).2,
    ((toggler_step_reads_period_twice initial 500 500).2.2.1 rfl).1,
    (toggler_step_reads_period_twice initial 500 500).2.2.2 rfl rfl⟩

/-! ## C14 -/

/-- C14: after an `Init` that did not halt, both lines were last driven
inactive and both state bytes are 0; and in every state reached from there by
toggler steps (with logger steps and writes of the period interleaved
anywhere), every drive call taken to drive its line, the level last driven on
GPIO4 is active iff `gpio4_state` is non-zero and the level last driven on
GPIO18 is active iff `gpio18_state` is non-zero. -/
theorem pins_match_state (st : InitStatuses) (h : (Init st initial).halted = none) :
    ((Init st initial).world.sh.gpio4_state = 0 ∧
      (Init st initial).world.sh.gpio18_state = 0 ∧
      lastDriven GPIO_BANK GPIO4 (Init st initial).world.trace = some false ∧
      lastDriven GPIO_BANK GPIO18 (Init st initial).world.trace = some false) ∧
    (∀ es : List Event,
      lastDriven GPIO_BANK GPIO4 (run (Init st initial).world es).trace =
        some (decide ((run (Init st initial).world es).sh.gpio4_state ≠ 0)) ∧
      lastDriven GPIO_BANK GPIO18 (run (Init st initial).world es).trace =
        some (decide ((run (Init st initial).world es).sh.gpio18_state ≠ 0))) := by
  obtain ⟨h1, h2⟩ := Init_halted_none st initial h
  have hs := Init_ok_sh st initial h1 h2
  have hl := Init_ok_lastDriven st h1 h2
  have g4 : (Init st initial).world.sh.gpio4_state = 0 := by rw [hs]
  have g18 : (Init st initial).world.sh.gpio18_state = 0 := by rw [hs]
  refine ⟨⟨g4, g18, hl.1, hl.2⟩, fun es => ?_⟩
  have h0 : PinsMatch (Init st initial).world := by
    unfold PinsMatch; rw [hl.1, hl.2, g4, g18]; exact ⟨rfl, rfl⟩
  exact run_pinsMatch es _ h0

/-- C14 at a concrete input: after the all-successful `Init` and three toggler
steps with a logger step in between, A is on and GPIO4 was last driven active,
B is on and GPIO18 was last driven active. -/
theorem pins_match_state_witness :
    (run (Init allSuccessful initial).world
      [Event.toggler, Event.toggler, Event.logger, Event.toggler]).sh.gpio4_state = 1 ∧
    lastDriven GPIO_BANK GPIO4 (run (Init allSuccessful initial).world
      [Event.toggler, Event.toggler, Event.logger, Event.toggler]).trace = some true ∧
    (run (Init allSuccessful initial).world
      [Event.toggler, Event.toggler, Event.logger, Event.toggler]).sh.gpio18_state = 1 ∧
    lastDriven GPIO_BANK GPIO18 (run (Init allSuccessful initial).world
      [Event.toggler, Event.toggler, Event.logger, Event.toggler]).trace = some true := by
  have h := (pins_match_state allSuccessful rfl).2
    [Event.toggler, Event.toggler, Event.logger, Event.toggler]
  exact ⟨by decide, h.1, by decide, h.2⟩

/-! ## C16 -/

/-- C16: take any state in which a report was just made (the baseline equals
`ms_elapsed`, any `uint32_t` value) and any run from it that prints nothing,
whose toggler steps added `d < 2^32` milliseconds in total, the period free to
change between steps.  Then the `uint32_t` difference
`ms_elapsed - last_ms_reported` the logger computes is exactly `d`, also when
`ms_elapsed` has wrapped and is numerically below the baseline, and the next
logger step prints iff `d ≥ 500`. -/
theorem logger_difference_across_wrap (w : World) (es : List Event)
    (hms : w.sh.ms_elapsed < U32) (hb : w.last_ms_reported = w.sh.ms_elapsed)
    (hq : reports (run w es) = reports w) (hd : addedMs w es < U32) :
    u32sub (run w es).sh.ms_elapsed (run w es).last_ms_reported = addedMs w es ∧
    (logger_due (run w es) = true ↔ 500 ≤ addedMs w es) ∧
    ((reports (logger_task_step (run w es))).length = (reports (run w es)).length + 1 ↔
      500 ≤ addedMs w es) := by
  have h1 := run_addedMs es w
  have h2 := run_ms_lt es w hms
  have h3 := run_last_of_quiet es w hq
  have hu : u32sub (run w es).sh.ms_elapsed (run w es).last_ms_reported = addedMs w es := by
    rw [h3, hb]
    unfold u32sub
    unfold U32 at *
    omega
  have hdue : logger_due (run w es) = true ↔ 500 ≤ addedMs w es := by
    rw [logger_due_iff, hu]
  refine ⟨hu, hdue, ?_⟩
  rw [logger_step_reports, ← hdue]
  by_cases hl : logger_due (run w es) = true <;> simp [hl]

/-- C16 at a concrete input: with the baseline 4294967000 and one toggler step
of period 500, `ms_elapsed` has wrapped to 204, below the baseline, the
difference the logger computes is 500, and the logger step prints. -/
theorem logger_difference_across_wrap_witness :
    (run reportedNearWrap [Event.toggler]).sh.ms_elapsed = 204 ∧
    (run reportedNearWrap [Event.toggler]).sh.ms_elapsed <
      (run reportedNearWrap [Event.toggler]).last_ms_reported ∧
    addedMs reportedNearWrap [Event.toggler] = 500 ∧
    u32sub (run reportedNearWrap [Event.toggler]).sh.ms_elapsed
      (run reportedNearWrap [Event.toggler]).last_ms_reported = 500 ∧
    logger_due (run reportedNearWrap [Event.toggler]) = true := by
  have h := logger_difference_across_wrap reportedNearWrap [Event.toggler]
    (by decide) rfl (by decide) (by decide)
  exact ⟨by decide, by decide, by decide, h.1, h.2.1.mpr (by decide)⟩

end GpioApp
